import Mathlib

/-!
Shallow embedding of `jump.py` (rameezk/jump): a named-jump resolver and
SSM tunnel launcher.  The embedding follows the source file:

* config parsing (`parse_jumps_from_config`, the `Jump(**j)` dataclass
  construction and the `{j.name: j for j in jumps}` dict comprehension),
* the two directory lookups (`lookup_instance_id`,
  `lookup_dns_from_vpc_endpoint`),
* the tunnel launcher (`start_ssm_session`), and
* the `jump` command tying them together.

External subprocess calls (`aws ec2 describe-instances`,
`aws ec2 describe-vpc-endpoints`, `aws ssm start-session`) are modelled by
an environment `Env` of response functions; each embedded function returns
an `Eff` value recording its result (`Except Nat` models `typer.Exit(code)`
propagation), the `typer.secho` messages it emits, and the external service
invocations it constructs, in order.
-/

namespace JumpPy

/-- A YAML scalar value as it comes out of `yaml.safe_load` for the fields of
one jump record.  Python is dynamically typed, so a field of a parsed record
can hold any of these regardless of the dataclass annotations. -/
inductive Value where
  | vStr (s : String)
  | vInt (n : Int)
  | vBool (b : Bool)
deriving DecidableEq, Repr

/-- One raw jump record of the config document: the YAML mapping for one
entry of `raw["jumps"]`, as a key/value association list (YAML mappings have
distinct keys). -/
abbrev Record := List (String × Value)

/-- The `Jump` dataclass instance as actually built by `Jump(**j)`: Python
dataclasses do not validate the annotated field types, so every field holds
whatever `Value` the document supplied. -/
structure RawJump where
  name : Value
  target_instance_name : Value
  remote_host : Value
  remote_port : Value
  local_port : Value
  aws_profile : Value
  remote_host_is_a_vpc_endpoint : Value
deriving DecidableEq, Repr

/-- The required keyword arguments of the `Jump` dataclass (all fields
without a default). -/
def requiredFields : List String :=
  ["name", "target_instance_name", "remote_host", "remote_port",
   "local_port", "aws_profile"]

/-- All keyword arguments the `Jump` dataclass accepts:
`remote_host_is_a_vpc_endpoint` additionally has default `False`. -/
def allFields : List String :=
  requiredFields ++ ["remote_host_is_a_vpc_endpoint"]

/-- `Jump(**j)`: raises `TypeError` on an unexpected keyword argument or a
missing required keyword-only argument; performs no type validation of the
field values. -/
def mkJump (r : Record) : Except String RawJump :=
  if r.any (fun kv => !(allFields.contains kv.1)) then
    .error "got an unexpected keyword argument"
  else
    match r.lookup "name" with
    | none => .error "missing required keyword-only argument name"
    | some n =>
    match r.lookup "target_instance_name" with
    | none => .error "missing required keyword-only argument target_instance_name"
    | some t =>
    match r.lookup "remote_host" with
    | none => .error "missing required keyword-only argument remote_host"
    | some rh =>
    match r.lookup "remote_port" with
    | none => .error "missing required keyword-only argument remote_port"
    | some rp =>
    match r.lookup "local_port" with
    | none => .error "missing required keyword-only argument local_port"
    | some lp =>
    match r.lookup "aws_profile" with
    | none => .error "missing required keyword-only argument aws_profile"
    | some ap =>
      .ok ⟨n, t, rh, rp, lp, ap,
           (r.lookup "remote_host_is_a_vpc_endpoint").getD (.vBool false)⟩

/-- The `RawJump` a structurally valid record parses to (total companion of
`mkJump`; the `getD` defaults are never reached on valid records). -/
def mkJumpD (r : Record) : RawJump :=
  ⟨(r.lookup "name").getD (.vStr ""),
   (r.lookup "target_instance_name").getD (.vStr ""),
   (r.lookup "remote_host").getD (.vStr ""),
   (r.lookup "remote_port").getD (.vStr ""),
   (r.lookup "local_port").getD (.vStr ""),
   (r.lookup "aws_profile").getD (.vStr ""),
   (r.lookup "remote_host_is_a_vpc_endpoint").getD (.vBool false)⟩

/-- A record has only known keys and all required keys: exactly the records
`Jump(**j)` accepts. -/
def validRecord (r : Record) : Bool :=
  !(r.any (fun kv => !(allFields.contains kv.1))) &&
    (requiredFields.all (fun k => (r.lookup k).isSome))

/-- A record holds some key not accepted by the `Jump` dataclass. -/
def hasUnknownKey (r : Record) : Bool :=
  r.any (fun kv => !(allFields.contains kv.1))

/-- A record lacks some required keyword argument of the `Jump` dataclass. -/
def missingRequiredKey (r : Record) : Bool :=
  requiredFields.any (fun k => (r.lookup k).isNone)

/-- The outcome of `open("config.yaml")` plus `yaml.safe_load` plus
`raw["jumps"]`: either some exception was raised before the records were
available (file absent, malformed YAML, no `jumps` key), carrying its
message, or the list of raw jump records in document order. -/
inductive RawConfig where
  | readError (msg : String)
  | parsed (records : List Record)
deriving DecidableEq, Repr

/-- Outcome of `parse_jumps_from_config`: either the parsed jumps (document
order) or the `typer.secho` error message followed by `typer.Exit(code=1)`.
There is no partial outcome: any exception aborts the whole load. -/
inductive ConfigResult where
  | ok (jumps : List RawJump)
  | configError (msg : String)
deriving DecidableEq, Repr

/-- The message `parse_jumps_from_config` echoes on failure, wrapping the
underlying exception text. -/
def configErrorMsg (e : String) : String :=
  "Failed to parse config.yaml. Please have a look at config.example.yaml for syntax. The error: " ++ e

/-- `[Jump(**j) for j in raw["jumps"]]`: builds each record in order; the
first record whose construction raises aborts the comprehension with that
error. -/
def mapJumps : List Record → Except String (List RawJump)
  | [] => .ok []
  | r :: rs =>
    match mkJump r with
    | .error e => .error e
    | .ok j =>
      match mapJumps rs with
      | .error e => .error e
      | .ok js => .ok (j :: js)

/-- `parse_jumps_from_config`: everything (file read, YAML parse, record
construction) sits in one `try`; any exception is reported via the wrapped
message and the function exits with code 1, producing no mapping. -/
def parse_jumps_from_config : RawConfig → ConfigResult
  | .readError msg => .configError (configErrorMsg msg)
  | .parsed records =>
    match mapJumps records with
    | .error e => .configError (configErrorMsg e)
    | .ok js => .ok js

/-- Lookup in the dict built by `{j.name: j for j in jumps}`: a later entry
with the same name overwrites an earlier one, so lookup returns the last
jump in list order whose `name` field matches. -/
def dictGet : List RawJump → Value → Option RawJump
  | [], _ => none
  | j :: js, nv =>
    match dictGet js nv with
    | some x => some x
    | none => if j.name = nv then some j else none

/-- The last record in document order whose `name` field equals `nv`. -/
def lastWithName (nv : Value) : List Record → Option Record
  | [] => none
  | r :: rs =>
    match lastWithName nv rs with
    | some x => some x
    | none => if r.lookup "name" = some nv then some r else none

/-! ## The resolution-and-launch pipeline

The pipeline functions consume a jump definition with the field types the
dataclass declares (strings, ints, a bool) — the shapes every field has in
any well-formed config. -/

/-- A jump definition with the declared field types of the `Jump`
dataclass. -/
structure Jump where
  name : String
  target_instance_name : String
  remote_host : String
  remote_port : Int
  local_port : Int
  aws_profile : String
  remote_host_is_a_vpc_endpoint : Bool
deriving DecidableEq, Repr

/-- `jumps.get(name, None)` over the dict `{j.name: j for j in jumps}`:
the last jump in list order whose `name` matches, if any. -/
def jumpsGet : List Jump → String → Option Jump
  | [], _ => none
  | j :: js, nm =>
    match jumpsGet js nm with
    | some x => some x
    | none => if j.name = nm then some j else none

/-- The `parameters` dict built by `start_ssm_session`, each value a
single-element list of strings as the SSM API requires. -/
structure SsmParameters where
  host : List String
  portNumber : List String
  localPortNumber : List String
deriving DecidableEq, Repr

/-- One constructed external service invocation, with the data the source
interpolates into the corresponding `aws` command line. -/
inductive ExtCall where
  /-- `aws ec2 describe-instances` filtered by
  `Name=tag:Name,Values=<tagNameValue>` and
  `Name=instance-state-name,Values=<stateValue>` under `--profile`. -/
  | describeInstances (aws_profile tagNameValue stateValue : String)
  /-- `aws ec2 describe-vpc-endpoints` filtered by
  `Name=tag:Name,Values=<tagNameValue>` under `--profile`. -/
  | describeVpcEndpoints (aws_profile tagNameValue : String)
  /-- `aws ssm start-session --target <target> --document-name <doc>
  --parameters <parameters>` under `--profile`. -/
  | ssmStartSession (aws_profile target documentName : String)
      (parameters : SsmParameters)
deriving DecidableEq, Repr

/-- Result of a `subprocess.check_output` call: the decoded stdout on exit
status 0, or `CalledProcessError` on a non-zero exit status. -/
inductive SubprocessResult where
  | success (stdout : String)
  | failure
deriving DecidableEq, Repr

/-- The external world: what each `aws` subprocess call returns, keyed by
the arguments the source interpolates into the command line.  `ssmExit` is
the exit status of the `aws ssm start-session` subprocess; the source runs
it with `subprocess.run` without `check=True`, which never raises
`CalledProcessError`, so this status is never inspected. -/
structure Env where
  ec2DescribeInstances : String → String → SubprocessResult
  ec2DescribeVpcEndpoints : String → String → SubprocessResult
  ssmExit : Int

/-- Result of running one embedded function: `result` is the returned value
or the code of a propagating `typer.Exit`; `echoes` are the `typer.secho`
messages in order; `calls` are the constructed external service invocations
in order. -/
structure Eff (α : Type) where
  result : Except Nat α
  echoes : List String
  calls : List ExtCall
deriving Repr

/-- Python's `str.strip()` on the character list: drop leading and trailing
whitespace. -/
def stripChars (l : List Char) : List Char :=
  ((l.dropWhile Char.isWhitespace).reverse.dropWhile Char.isWhitespace).reverse

/-- Python's `str.strip()`: the string with surrounding whitespace
removed. -/
def pyStrip (s : String) : String :=
  ⟨stripChars s.data⟩

/-- The `aws ec2 describe-instances` command string built by
`lookup_instance_id` (the `--output text` flag is appended twice, as in the
source). -/
def lookup_instance_cmd (instance_name aws_profile : String) : String :=
  "aws --profile " ++ aws_profile ++ " ec2 describe-instances" ++
  " --query \"Reservations[*].Instances[*].[InstanceId]\" --output text" ++
  " --filters" ++
  " Name=tag:Name,Values=" ++ instance_name ++
  " Name=instance-state-name,Values=running" ++
  " --output text"

/-- `lookup_instance_id(instance_name, aws_profile, verbose)`:
runs `describe-instances`, strips the output; empty output or a transport
failure or more than one result line is fatal (`typer.Exit(code=1)`),
otherwise the stripped single line is returned.  Python's
`"\n" in instance_id` is embedded as membership of the newline character in
the string's characters. -/
def lookup_instance_id (env : Env) (instance_name aws_profile : String)
    (verbose : Bool) : Eff String :=
  let m0 := ["Looking up the instance ID of " ++ instance_name]
  let cmd := lookup_instance_cmd instance_name aws_profile
  let m1 := m0 ++ (if verbose then [cmd] else [])
  let call := ExtCall.describeInstances aws_profile instance_name "running"
  match env.ec2DescribeInstances aws_profile instance_name with
  | .failure =>
    ⟨.error 1, m1 ++ ["Failed to lookup the instance ID of " ++ instance_name],
     [call]⟩
  | .success out =>
    let instance_id := pyStrip out
    let m2 := m1 ++ (if verbose then ["instance_id=\x27" ++ instance_id ++ "\x27"] else [])
    if instance_id = "" then
      ⟨.error 1, m2 ++ ["Could not find instance ID for " ++ instance_name], [call]⟩
    else if '\n' ∈ instance_id.data then
      ⟨.error 1,
       m2 ++ ["Found more than one instance. This is not supported at the moment."],
       [call]⟩
    else
      ⟨.ok instance_id, m2, [call]⟩

/-- The `aws ec2 describe-vpc-endpoints` command string built by
`lookup_dns_from_vpc_endpoint`. -/
def lookup_vpc_endpoint_cmd (vpc_endpoint_name aws_profile : String) : String :=
  "aws --profile " ++ aws_profile ++ " ec2 describe-vpc-endpoints" ++
  " --query \"VpcEndpoints[0].DnsEntries[0].DnsName\"" ++
  " --filters" ++
  " Name=tag:Name,Values=" ++ vpc_endpoint_name ++
  " --output text"

/-- `lookup_dns_from_vpc_endpoint(vpc_endpoint_name, aws_profile, verbose)`:
runs `describe-vpc-endpoints`, strips the output; empty output or a
transport failure is fatal (`typer.Exit(code=1)`), otherwise the stripped
output is returned as the DNS name. -/
def lookup_dns_from_vpc_endpoint (env : Env) (vpc_endpoint_name aws_profile : String)
    (verbose : Bool) : Eff String :=
  let m0 := ["Looking up the DNS from VPC endpoint " ++ vpc_endpoint_name]
  let cmd := lookup_vpc_endpoint_cmd vpc_endpoint_name aws_profile
  let m1 := m0 ++ (if verbose then [cmd] else [])
  let call := ExtCall.describeVpcEndpoints aws_profile vpc_endpoint_name
  match env.ec2DescribeVpcEndpoints aws_profile vpc_endpoint_name with
  | .failure =>
    ⟨.error 1, m1 ++ ["Failed to lookup the DNS of " ++ vpc_endpoint_name], [call]⟩
  | .success out =>
    let dns_name := pyStrip out
    let m2 := m1 ++ (if verbose then ["dns_name=\x27" ++ dns_name ++ "\x27"] else [])
    if dns_name = "" then
      ⟨.error 1, m2 ++ ["Could not find DNS for " ++ vpc_endpoint_name], [call]⟩
    else
      ⟨.ok dns_name, m2, [call]⟩

/-- `json.dumps` of a list of strings (no escaping needed for the values at
hand). -/
def jsonStrList (xs : List String) : String :=
  "[" ++ String.intercalate ", " (xs.map (fun s => "\"" ++ s ++ "\"")) ++ "]"

/-- `json.dumps(parameters)` for the SSM parameters dict (`\x7b`/`\x7d` are
the brace characters). -/
def jsonDumpsParameters (p : SsmParameters) : String :=
  "\x7b\"host\": " ++ jsonStrList p.host ++
  ", \"portNumber\": " ++ jsonStrList p.portNumber ++
  ", \"localPortNumber\": " ++ jsonStrList p.localPortNumber ++ "\x7d"

/-- The `aws ssm start-session` command string built by `start_ssm_session`
(`\x27` is the single-quote character wrapping the JSON parameters). -/
def ssm_session_cmd (aws_profile target_instance_id : String)
    (p : SsmParameters) : String :=
  "aws --profile " ++ aws_profile ++ " " ++
  "ssm start-session --target " ++ target_instance_id ++ " " ++
  "--document-name AWS-StartPortForwardingSessionToRemoteHost --parameters " ++
  "\x27" ++ jsonDumpsParameters p ++ "\x27"

/-- `start_ssm_session(target_instance_id, remote_host, remote_port,
local_port, aws_profile, verbose)`: constructs the parameters dict and the
command, then invokes it with `subprocess.run(cmd, shell=True)`.  Without
`check=True`, `subprocess.run` never raises `CalledProcessError` on a
non-zero exit status, so the `except` branch is unreachable: the function
returns normally whatever `env.ssmExit` is. -/
def start_ssm_session (env : Env) (target_instance_id remote_host : String)
    (remote_port local_port : Int) (aws_profile : String)
    (verbose : Bool) : Eff Unit :=
  let parameters : SsmParameters :=
    ⟨[remote_host], [toString remote_port], [toString local_port]⟩
  let cmd := ssm_session_cmd aws_profile target_instance_id parameters
  let m := ["Establishing an SSM session"] ++ (if verbose then [cmd] else [])
  let _ := env.ssmExit
  ⟨.ok (), m,
   [ExtCall.ssmStartSession aws_profile target_instance_id
      "AWS-StartPortForwardingSessionToRemoteHost" parameters]⟩

/-- Outcome of `parse_jumps_from_config()` as consumed by the `jump`
command: the load either failed (message echoed, `typer.Exit(code=1)`) or
produced the jump definitions in document order. -/
inductive LoadOutcome where
  | failed (msg : String)
  | loaded (jumps : List Jump)

/-- The `jump` command: load the config, look the name up in the dict
(missing name is fatal), resolve the instance ID, resolve the remote host
(via the VPC endpoint lookup exactly when `remote_host_is_a_vpc_endpoint`),
then start the SSM session.  A `typer.Exit` from any stage propagates and
skips the remaining stages. -/
def jump (env : Env) (load : LoadOutcome) (name : String)
    (verbose : Bool) : Eff Unit :=
  match load with
  | .failed msg => ⟨.error 1, [configErrorMsg msg], []⟩
  | .loaded jumps =>
    match jumpsGet jumps name with
    | none => ⟨.error 1, ["Jump " ++ name ++ " not specified in config.yaml"], []⟩
    | some target =>
      let e1 := lookup_instance_id env target.target_instance_name
                  target.aws_profile verbose
      match e1.result with
      | .error c => ⟨.error c, e1.echoes, e1.calls⟩
      | .ok target_instance_id =>
        let e2 : Eff String :=
          if target.remote_host_is_a_vpc_endpoint then
            lookup_dns_from_vpc_endpoint env target.remote_host
              target.aws_profile verbose
          else
            ⟨.ok target.remote_host, [], []⟩
        match e2.result with
        | .error c => ⟨.error c, e1.echoes ++ e2.echoes, e1.calls ++ e2.calls⟩
        | .ok target_remote_host =>
          let e3 := start_ssm_session env target_instance_id target_remote_host
                      target.remote_port target.local_port target.aws_profile verbose
          ⟨e3.result, e1.echoes ++ e2.echoes ++ e3.echoes,
           e1.calls ++ e2.calls ++ e3.calls⟩

/-- The process exit status: `0` when the command returns normally, the
`typer.Exit` code otherwise. -/
def exitCode (e : Eff Unit) : Nat :=
  match e.result with
  | .ok _ => 0
  | .error c => c

/-! ## Helper definitions for the analysis -/

/-- The number of result lines of a stripped lookup output: zero for the
empty text, otherwise one more than the number of newline characters. -/
def lineCount (s : String) : Nat :=
  if s = "" then 0 else s.data.count '\n' + 1

/-- The result of `lookup_instance_id` as a function of the environment
alone (it does not depend on `verbose`). -/
def instanceLookupResult (env : Env) (instance_name aws_profile : String) :
    Except Nat String :=
  match env.ec2DescribeInstances aws_profile instance_name with
  | .failure => .error 1
  | .success out =>
    if pyStrip out = "" then .error 1
    else if '\n' ∈ (pyStrip out).data then .error 1
    else .ok (pyStrip out)

/-- The result of `lookup_dns_from_vpc_endpoint` as a function of the
environment alone (it does not depend on `verbose`). -/
def dnsLookupResult (env : Env) (vpc_endpoint_name aws_profile : String) :
    Except Nat String :=
  match env.ec2DescribeVpcEndpoints aws_profile vpc_endpoint_name with
  | .failure => .error 1
  | .success out =>
    if pyStrip out = "" then .error 1
    else .ok (pyStrip out)

/-- Whether an external call is an endpoint-directory (`describe-vpc-endpoints`)
invocation. -/
def ExtCall.isVpcEndpointLookup : ExtCall → Bool
  | .describeVpcEndpoints _ _ => true
  | _ => false

/-! ## Concrete inputs used by witnesses and counterexamples -/

/-- The concrete jump definition of the spec's worked example. -/
def dbJump : Jump :=
  ⟨"db-jump", "db-bastion", "10.0.1.5", 5432, 15432, "default", false⟩

/-- A jump definition whose remote host is a VPC endpoint name. -/
def epJump : Jump :=
  ⟨"svc-jump", "svc-bastion", "my-endpoint", 443, 8443, "prod", true⟩

/-- An environment where the instance lookup finds exactly one instance,
the endpoint lookup finds one DNS name, and the SSM transport exits 0. -/
def envOk : Env :=
  ⟨fun _ _ => .success "i-0abc\n", fun _ _ => .success "vpce.internal\n", 0⟩

/-- An environment where the instance lookup finds exactly one instance and
the SSM transport exits with the non-zero status 255. -/
def envSsmFails : Env :=
  ⟨fun _ _ => .success "i-0abc\n", fun _ _ => .success "vpce.internal\n", 255⟩

/-- An environment where both directory lookup subprocesses fail
(`CalledProcessError`). -/
def envLookupsFail : Env :=
  ⟨fun _ _ => .failure, fun _ _ => .failure, 0⟩

/-- An environment where the endpoint lookup returns only whitespace. -/
def envDnsEmpty : Env :=
  ⟨fun _ _ => .success "i-0abc\n", fun _ _ => .success "  \n", 0⟩

/-- A config record whose `remote_port` field holds a string instead of the
annotated `int`: every key is known and every required key present, only
the value type disagrees with the dataclass annotation. -/
def badTypedRecord : Record :=
  [("name", .vStr "a"), ("target_instance_name", .vStr "t"),
   ("remote_host", .vStr "h"), ("remote_port", .vStr "not-an-int"),
   ("local_port", .vInt 1), ("aws_profile", .vStr "p")]

/-- A valid config record named `dup`. -/
def dupRecord1 : Record :=
  [("name", .vStr "dup"), ("target_instance_name", .vStr "t1"),
   ("remote_host", .vStr "h1"), ("remote_port", .vInt 1),
   ("local_port", .vInt 2), ("aws_profile", .vStr "p1")]

/-- A second valid config record also named `dup`, later in document
order. -/
def dupRecord2 : Record :=
  [("name", .vStr "dup"), ("target_instance_name", .vStr "t2"),
   ("remote_host", .vStr "h2"), ("remote_port", .vInt 3),
   ("local_port", .vInt 4), ("aws_profile", .vStr "p2"),
   ("remote_host_is_a_vpc_endpoint", .vBool true)]

/-- A config record missing most required keys (only `name` is present). -/
def missingFieldRecord : Record :=
  [("name", .vStr "m")]

/-! ## Structural lemmas about the embedded functions -/

theorem lookup_instance_id_result (env : Env) (nm pf : String) (vb : Bool) :
    (lookup_instance_id env nm pf vb).result = instanceLookupResult env nm pf := by
  unfold lookup_instance_id instanceLookupResult
  cases h : env.ec2DescribeInstances pf nm <;> simp only [h] <;> split_ifs <;> simp_all

theorem lookup_instance_id_calls (env : Env) (nm pf : String) (vb : Bool) :
    (lookup_instance_id env nm pf vb).calls =
      [ExtCall.describeInstances pf nm "running"] := by
  unfold lookup_instance_id
  cases h : env.ec2DescribeInstances pf nm <;> simp only [h] <;> split_ifs <;> simp_all

theorem lookup_dns_result (env : Env) (nm pf : String) (vb : Bool) :
    (lookup_dns_from_vpc_endpoint env nm pf vb).result = dnsLookupResult env nm pf := by
  unfold lookup_dns_from_vpc_endpoint dnsLookupResult
  cases h : env.ec2DescribeVpcEndpoints pf nm <;> simp only [h] <;> split_ifs <;> simp_all

theorem lookup_dns_calls (env : Env) (nm pf : String) (vb : Bool) :
    (lookup_dns_from_vpc_endpoint env nm pf vb).calls =
      [ExtCall.describeVpcEndpoints pf nm] := by
  unfold lookup_dns_from_vpc_endpoint
  cases h : env.ec2DescribeVpcEndpoints pf nm <;> simp only [h] <;> split_ifs <;> simp_all

theorem start_ssm_session_result (env : Env) (t rh : String) (rp lp : Int)
    (pf : String) (vb : Bool) :
    (start_ssm_session env t rh rp lp pf vb).result = .ok () := rfl

theorem start_ssm_session_calls (env : Env) (t rh : String) (rp lp : Int)
    (pf : String) (vb : Bool) :
    (start_ssm_session env t rh rp lp pf vb).calls =
      [ExtCall.ssmStartSession pf t "AWS-StartPortForwardingSessionToRemoteHost"
        ⟨[rh], [toString rp], [toString lp]⟩] := rfl

/-! ## Claims -/

/-- Claim C1, behaviour of the code at the failing input: the lookups
succeed and the SSM transport subprocess exits with the non-zero status 255
(`envSsmFails`), yet the session is launched, no failure message is echoed
and the process exits with status 0 — `subprocess.run` is called without
`check=True`, so its `except subprocess.CalledProcessError` handler is
unreachable and a non-zero exit of the transport is silently ignored,
contradicting the claimed fatal exit 1. -/
theorem C1_tunnel_failure_ignored :
    exitCode (jump envSsmFails (.loaded [dbJump]) "db-jump" false) = 0 ∧
    envSsmFails.ssmExit = 255 ∧
    "Failed to establish an SSM session" ∉
      (jump envSsmFails (.loaded [dbJump]) "db-jump" false).echoes ∧
    ExtCall.ssmStartSession "default" "i-0abc"
        "AWS-StartPortForwardingSessionToRemoteHost"
        ⟨["10.0.1.5"], ["5432"], ["15432"]⟩ ∈
      (jump envSsmFails (.loaded [dbJump]) "db-jump" false).calls := by
  refine ⟨by decide, rfl, by decide, by decide⟩

/-- The stripped output has zero lines exactly when it is empty. -/
theorem lineCount_eq_zero (s : String) : lineCount s = 0 ↔ s = "" := by
  unfold lineCount
  split <;> simp_all

/-- The stripped output has two or more lines exactly when it is nonempty
and holds a newline character. -/
theorem lineCount_ge_two (s : String) :
    2 ≤ lineCount s ↔ s ≠ "" ∧ '\n' ∈ s.data := by
  unfold lineCount
  by_cases h : s = ""
  · simp [h]
  · simp only [h, if_false, ne_eq, not_false_iff, true_and]
    constructor
    · intro h2
      exact List.count_pos_iff.mp (by omega)
    · intro hm
      have := List.count_pos_iff.mpr hm
      omega

/-- The stripped output has exactly one line exactly when it is nonempty
and holds no newline character. -/
theorem lineCount_eq_one (s : String) :
    lineCount s = 1 ↔ s ≠ "" ∧ '\n' ∉ s.data := by
  unfold lineCount
  by_cases h : s = ""
  · simp [h]
  · simp only [h, if_false, ne_eq, not_false_iff, true_and]
    rw [← List.count_eq_zero]
    omega

/-- Claim C2: the text returned by the compute-directory query determines
the outcome of `lookup_instance_id` exactly by its line count after
stripping: zero lines is the fatal not-found error (`typer.Exit(code=1)`
after the not-found message), two or more lines is the fatal
ambiguous-result error, and exactly one line yields that line — the output
stripped of surrounding whitespace — as the returned instance
identifier. -/
theorem C2_instance_lookup_cardinality (env : Env) (nm pf : String) (vb : Bool)
    (out : String)
    (hresp : env.ec2DescribeInstances pf nm = .success out) :
    (lineCount (pyStrip out) = 0 →
      (lookup_instance_id env nm pf vb).result = .error 1 ∧
      ("Could not find instance ID for " ++ nm) ∈ (lookup_instance_id env nm pf vb).echoes) ∧
    (2 ≤ lineCount (pyStrip out) →
      (lookup_instance_id env nm pf vb).result = .error 1 ∧
      "Found more than one instance. This is not supported at the moment." ∈
        (lookup_instance_id env nm pf vb).echoes) ∧
    (lineCount (pyStrip out) = 1 →
      (lookup_instance_id env nm pf vb).result = .ok (pyStrip out)) := by
  refine ⟨fun h0 => ?_, fun h2 => ?_, fun h1 => ?_⟩
  · rw [lineCount_eq_zero] at h0
    constructor <;> simp [lookup_instance_id, hresp, h0]
  · rw [lineCount_ge_two] at h2
    constructor <;> simp [lookup_instance_id, hresp, h2.1, h2.2]
  · rw [lineCount_eq_one] at h1
    simp [lookup_instance_id, hresp, h1.1, h1.2]

/-- Claim C2 witness: the single-line output `"i-0abc\n"` under `envOk`
discharges the hypothesis; the one-line case then returns the stripped
identifier. -/
theorem C2_instance_lookup_cardinality_witness :
    envOk.ec2DescribeInstances "default" "db-bastion" = .success "i-0abc\n" ∧
    ((lineCount (pyStrip "i-0abc\n") = 0 →
      (lookup_instance_id envOk "db-bastion" "default" false).result = .error 1 ∧
      ("Could not find instance ID for " ++ "db-bastion") ∈
        (lookup_instance_id envOk "db-bastion" "default" false).echoes) ∧
    (2 ≤ lineCount (pyStrip "i-0abc\n") →
      (lookup_instance_id envOk "db-bastion" "default" false).result = .error 1 ∧
      "Found more than one instance. This is not supported at the moment." ∈
        (lookup_instance_id envOk "db-bastion" "default" false).echoes) ∧
    (lineCount (pyStrip "i-0abc\n") = 1 →
      (lookup_instance_id envOk "db-bastion" "default" false).result =
        .ok (pyStrip "i-0abc\n"))) :=
  ⟨rfl, C2_instance_lookup_cardinality envOk "db-bastion" "default" false "i-0abc\n" rfl⟩

/-- Claim C5: for the concrete jump definition `db-jump` (target instance
`db-bastion`, remote host `10.0.1.5`, remote port 5432, local port 15432,
not a VPC endpoint), whenever the instance lookup returns a single
instance, the constructed invocations are exactly the instance-directory
query filtered by name-tag value `db-bastion` and state `running`, followed
by the tunnel invocation whose parameter set is
`host=["10.0.1.5"], portNumber=["5432"], localPortNumber=["15432"]`, each a
single-element list of strings. -/
theorem C5_db_jump_invocation (env : Env) (verbose : Bool) (out : String)
    (hresp : env.ec2DescribeInstances "default" "db-bastion" = .success out)
    (hne : pyStrip out ≠ "") (hnl : '\n' ∉ (pyStrip out).data) :
    (jump env (.loaded [dbJump]) "db-jump" verbose).calls =
      [ExtCall.describeInstances "default" "db-bastion" "running",
       ExtCall.ssmStartSession "default" (pyStrip out)
         "AWS-StartPortForwardingSessionToRemoteHost"
         ⟨["10.0.1.5"], ["5432"], ["15432"]⟩] := by
  have hj : jumpsGet [dbJump] "db-jump" = some dbJump := by decide
  have hres : instanceLookupResult env "db-bastion" "default" = .ok (pyStrip out) := by
    unfold instanceLookupResult
    rw [hresp]
    simp [hne, hnl]
  simp only [jump, lookup_instance_id_result, hj]
  simp [dbJump, hres, lookup_instance_id_calls, start_ssm_session_calls]
  decide

/-- Claim C5 witness: the single-instance environment `envOk` discharges
the hypotheses at `out = "i-0abc\n"`. -/
theorem C5_db_jump_invocation_witness :
    envOk.ec2DescribeInstances "default" "db-bastion" = .success "i-0abc\n" ∧
    pyStrip "i-0abc\n" ≠ "" ∧ '\n' ∉ (pyStrip "i-0abc\n").data ∧
    (jump envOk (.loaded [dbJump]) "db-jump" false).calls =
      [ExtCall.describeInstances "default" "db-bastion" "running",
       ExtCall.ssmStartSession "default" (pyStrip "i-0abc\n")
         "AWS-StartPortForwardingSessionToRemoteHost"
         ⟨["10.0.1.5"], ["5432"], ["15432"]⟩] :=
  ⟨rfl, by decide, by decide,
   C5_db_jump_invocation envOk false "i-0abc\n" rfl (by decide) (by decide)⟩

/-- Claim C3: for a jump definition whose VPC-endpoint flag is false, the
invocation never constructs an endpoint-directory call, and any constructed
tunnel invocation carries the definition's `remote_host` verbatim as its
`host` parameter. -/
theorem C3_verbatim_host_no_endpoint_lookup (env : Env) (js : List Jump)
    (nm : String) (vb : Bool) (j : Jump)
    (hj : jumpsGet js nm = some j)
    (hflag : j.remote_host_is_a_vpc_endpoint = false) :
    (∀ p n, ExtCall.describeVpcEndpoints p n ∉ (jump env (.loaded js) nm vb).calls) ∧
    (∀ p t d prm, ExtCall.ssmStartSession p t d prm ∈ (jump env (.loaded js) nm vb).calls →
      prm.host = [j.remote_host]) := by
  simp only [jump, hj, lookup_instance_id_result]
  cases hr : instanceLookupResult env j.target_instance_name j.aws_profile with
  | error c => simp [lookup_instance_id_calls]
  | ok tid =>
    simp only [hflag, Bool.false_eq_true, if_false]
    simp [lookup_instance_id_calls, start_ssm_session_calls]
    intro p t d prm h1 h2 h3 h4
    simp [h4]

/-- Claim C3 witness: the `db-jump` definition (flag false) under the
single-instance environment. -/
theorem C3_verbatim_host_no_endpoint_lookup_witness :
    jumpsGet [dbJump] "db-jump" = some dbJump ∧
    dbJump.remote_host_is_a_vpc_endpoint = false ∧
    ((∀ p n, ExtCall.describeVpcEndpoints p n ∉
        (jump envOk (.loaded [dbJump]) "db-jump" false).calls) ∧
     (∀ p t d prm, ExtCall.ssmStartSession p t d prm ∈
        (jump envOk (.loaded [dbJump]) "db-jump" false).calls →
        prm.host = [dbJump.remote_host])) :=
  ⟨by decide, rfl,
   C3_verbatim_host_no_endpoint_lookup envOk [dbJump] "db-jump" false dbJump
     (by decide) rfl⟩

/-- Claim C4: for a jump definition whose VPC-endpoint flag is true, every
constructed endpoint-directory call is queried with the definition's
`remote_host` as the name tag and its `aws_profile` as profile, and any
constructed tunnel invocation carries the DNS name returned by that lookup
(the stripped query output) as its `host` parameter. -/
theorem C4_endpoint_resolved_host (env : Env) (js : List Jump) (nm : String)
    (vb : Bool) (j : Jump) (out : String)
    (hj : jumpsGet js nm = some j)
    (hflag : j.remote_host_is_a_vpc_endpoint = true)
    (hvpc : env.ec2DescribeVpcEndpoints j.aws_profile j.remote_host = .success out) :
    (∀ p n, ExtCall.describeVpcEndpoints p n ∈ (jump env (.loaded js) nm vb).calls →
      p = j.aws_profile ∧ n = j.remote_host) ∧
    (∀ p t d prm, ExtCall.ssmStartSession p t d prm ∈ (jump env (.loaded js) nm vb).calls →
      prm.host = [pyStrip out]) := by
  simp only [jump, hj, lookup_instance_id_result]
  cases hr : instanceLookupResult env j.target_instance_name j.aws_profile with
  | error c => simp [lookup_instance_id_calls]
  | ok tid =>
    simp only [hflag, if_true, lookup_dns_result]
    have hd : dnsLookupResult env j.remote_host j.aws_profile =
        if pyStrip out = "" then .error 1 else .ok (pyStrip out) := by
      unfold dnsLookupResult
      rw [hvpc]
    by_cases he : pyStrip out = ""
    · rw [hd]
      simp [he, lookup_instance_id_calls, lookup_dns_calls]
    · rw [hd]
      simp [he, lookup_instance_id_calls, lookup_dns_calls, start_ssm_session_calls]
      intro p t d prm h1 h2 h3 h4
      simp [h4]

/-- Claim C4 witness: the endpoint-flagged `svc-jump` definition under the
environment whose endpoint lookup returns `"vpce.internal\n"`. -/
theorem C4_endpoint_resolved_host_witness :
    jumpsGet [epJump] "svc-jump" = some epJump ∧
    epJump.remote_host_is_a_vpc_endpoint = true ∧
    envOk.ec2DescribeVpcEndpoints epJump.aws_profile epJump.remote_host =
      .success "vpce.internal\n" ∧
    ((∀ p n, ExtCall.describeVpcEndpoints p n ∈
        (jump envOk (.loaded [epJump]) "svc-jump" false).calls →
        p = epJump.aws_profile ∧ n = epJump.remote_host) ∧
     (∀ p t d prm, ExtCall.ssmStartSession p t d prm ∈
        (jump envOk (.loaded [epJump]) "svc-jump" false).calls →
        prm.host = [pyStrip "vpce.internal\n"])) :=
  ⟨by decide, rfl, rfl,
   C4_endpoint_resolved_host envOk [epJump] "svc-jump" false epJump
     "vpce.internal\n" (by decide) rfl rfl⟩

/-- Every error result of the instance lookup carries exit code 1. -/
theorem instanceLookupResult_error (env : Env) (nm pf : String) (c : Nat)
    (h : instanceLookupResult env nm pf = .error c) : c = 1 := by
  unfold instanceLookupResult at h
  cases hr : env.ec2DescribeInstances pf nm <;> rw [hr] at h <;> dsimp only at h
  · split_ifs at h <;> simp_all
  · simp_all

/-- Claim C8: an endpoint-DNS lookup whose query output is empty after
stripping is the fatal not-found error, and one whose query subprocess
fails is the fatal lookup error, each with its message echoed and
`typer.Exit(code=1)`; in both cases the whole invocation exits with status
1 and constructs no tunnel invocation. -/
theorem C8_endpoint_lookup_failures (env : Env) (js : List Jump) (nm : String)
    (vb : Bool) (j : Jump)
    (hj : jumpsGet js nm = some j)
    (hflag : j.remote_host_is_a_vpc_endpoint = true)
    (hbad : env.ec2DescribeVpcEndpoints j.aws_profile j.remote_host = .failure ∨
            ∃ out, env.ec2DescribeVpcEndpoints j.aws_profile j.remote_host = .success out ∧
                   pyStrip out = "") :
    ((env.ec2DescribeVpcEndpoints j.aws_profile j.remote_host = .failure →
        (lookup_dns_from_vpc_endpoint env j.remote_host j.aws_profile vb).result = .error 1 ∧
        ("Failed to lookup the DNS of " ++ j.remote_host) ∈
          (lookup_dns_from_vpc_endpoint env j.remote_host j.aws_profile vb).echoes) ∧
     (∀ out, env.ec2DescribeVpcEndpoints j.aws_profile j.remote_host = .success out →
        pyStrip out = "" →
        (lookup_dns_from_vpc_endpoint env j.remote_host j.aws_profile vb).result = .error 1 ∧
        ("Could not find DNS for " ++ j.remote_host) ∈
          (lookup_dns_from_vpc_endpoint env j.remote_host j.aws_profile vb).echoes)) ∧
    exitCode (jump env (.loaded js) nm vb) = 1 ∧
    (∀ p t d prm, ExtCall.ssmStartSession p t d prm ∉ (jump env (.loaded js) nm vb).calls) := by
  refine ⟨⟨fun hf => ?_, fun out hs he => ?_⟩, ?_⟩
  · constructor <;> simp [lookup_dns_from_vpc_endpoint, hf]
  · constructor <;> simp [lookup_dns_from_vpc_endpoint, hs, he]
  · simp only [jump, hj, lookup_instance_id_result]
    cases hr : instanceLookupResult env j.target_instance_name j.aws_profile with
    | error c =>
      have hc := instanceLookupResult_error env _ _ c hr
      subst hc
      simp [exitCode, lookup_instance_id_calls]
    | ok tid =>
      simp only [hflag, if_true, lookup_dns_result]
      have hd : dnsLookupResult env j.remote_host j.aws_profile = .error 1 := by
        rcases hbad with hf | ⟨out, hs, he⟩
        · unfold dnsLookupResult
          rw [hf]
        · unfold dnsLookupResult
          rw [hs]
          simp [he]
      rw [hd]
      simp [exitCode, lookup_instance_id_calls, lookup_dns_calls]

/-- Claim C8 witness: under `envDnsEmpty` the endpoint lookup for
`svc-jump` returns only whitespace. -/
theorem C8_endpoint_lookup_failures_witness :
    jumpsGet [epJump] "svc-jump" = some epJump ∧
    epJump.remote_host_is_a_vpc_endpoint = true ∧
    envDnsEmpty.ec2DescribeVpcEndpoints epJump.aws_profile epJump.remote_host =
      .success "  \n" ∧ pyStrip "  \n" = "" ∧
    (((envDnsEmpty.ec2DescribeVpcEndpoints epJump.aws_profile epJump.remote_host = .failure →
        (lookup_dns_from_vpc_endpoint envDnsEmpty epJump.remote_host epJump.aws_profile false).result = .error 1 ∧
        ("Failed to lookup the DNS of " ++ epJump.remote_host) ∈
          (lookup_dns_from_vpc_endpoint envDnsEmpty epJump.remote_host epJump.aws_profile false).echoes) ∧
     (∀ out, envDnsEmpty.ec2DescribeVpcEndpoints epJump.aws_profile epJump.remote_host = .success out →
        pyStrip out = "" →
        (lookup_dns_from_vpc_endpoint envDnsEmpty epJump.remote_host epJump.aws_profile false).result = .error 1 ∧
        ("Could not find DNS for " ++ epJump.remote_host) ∈
          (lookup_dns_from_vpc_endpoint envDnsEmpty epJump.remote_host epJump.aws_profile false).echoes)) ∧
    exitCode (jump envDnsEmpty (.loaded [epJump]) "svc-jump" false) = 1 ∧
    (∀ p t d prm, ExtCall.ssmStartSession p t d prm ∉
        (jump envDnsEmpty (.loaded [epJump]) "svc-jump" false).calls)) :=
  ⟨by decide, rfl, rfl, by decide,
   C8_endpoint_lookup_failures envDnsEmpty [epJump] "svc-jump" false epJump
     (by decide) rfl (Or.inr ⟨"  \n", rfl, by decide⟩)⟩

/-- Claim C9: the verbose flag never changes behaviour — for every
environment, load outcome and requested name, running the command with
`verbose=true` and `verbose=false` produces the same result (hence the same
exit status) and the same constructed external-service invocations
(hence the same resolved target and parameters); only the diagnostic
echo output may differ. -/
theorem C9_verbose_noninterference (env : Env) (load : LoadOutcome) (nm : String) :
    (jump env load nm true).result = (jump env load nm false).result ∧
    (jump env load nm true).calls = (jump env load nm false).calls := by
  cases load with
  | failed msg => exact ⟨rfl, rfl⟩
  | loaded js =>
    cases hj : jumpsGet js nm with
    | none => simp [jump, hj]
    | some j =>
      simp only [jump, hj, lookup_instance_id_result]
      cases hr : instanceLookupResult env j.target_instance_name j.aws_profile with
      | error c => simp [lookup_instance_id_calls]
      | ok tid =>
        cases hflag : j.remote_host_is_a_vpc_endpoint with
        | false =>
          simp [lookup_instance_id_calls, start_ssm_session_calls,
            start_ssm_session_result]
        | true =>
          simp only [if_true, lookup_dns_result]
          cases hd : dnsLookupResult env j.remote_host j.aws_profile with
          | error c => simp [lookup_instance_id_calls, lookup_dns_calls]
          | ok dns =>
            simp [lookup_instance_id_calls, lookup_dns_calls, start_ssm_session_calls,
              start_ssm_session_result]

/-- Claim C6: requesting a jump name absent from the loaded config exits
with status 1 and constructs no external service invocation at all. -/
theorem C6_unknown_name_fatal (env : Env) (js : List Jump) (name : String)
    (verbose : Bool) (h : jumpsGet js name = none) :
    exitCode (jump env (.loaded js) name verbose) = 1 ∧
    (jump env (.loaded js) name verbose).calls = [] := by
  simp [jump, h, exitCode]

/-- Claim C6 witness: the name `nope` is absent from the config holding
only `db-jump`. -/
theorem C6_unknown_name_fatal_witness :
    jumpsGet [dbJump] "nope" = none ∧
    exitCode (jump envOk (.loaded [dbJump]) "nope" false) = 1 ∧
    (jump envOk (.loaded [dbJump]) "nope" false).calls = [] :=
  ⟨by decide, C6_unknown_name_fatal envOk [dbJump] "nope" false (by decide)⟩

theorem mkJump_ok_of_valid (r : Record) (h : validRecord r = true) :
    mkJump r = .ok (mkJumpD r) := by
  unfold validRecord at h
  rw [Bool.and_eq_true] at h
  obtain ⟨h1, h2⟩ := h
  rw [Bool.not_eq_true'] at h1
  rw [List.all_eq_true] at h2
  obtain ⟨n, hn⟩ := Option.isSome_iff_exists.mp (h2 "name" (by simp [requiredFields]))
  obtain ⟨t, ht⟩ := Option.isSome_iff_exists.mp (h2 "target_instance_name" (by simp [requiredFields]))
  obtain ⟨rh, hrh⟩ := Option.isSome_iff_exists.mp (h2 "remote_host" (by simp [requiredFields]))
  obtain ⟨rp, hrp⟩ := Option.isSome_iff_exists.mp (h2 "remote_port" (by simp [requiredFields]))
  obtain ⟨lp, hlp⟩ := Option.isSome_iff_exists.mp (h2 "local_port" (by simp [requiredFields]))
  obtain ⟨ap, hap⟩ := Option.isSome_iff_exists.mp (h2 "aws_profile" (by simp [requiredFields]))
  unfold mkJump mkJumpD
  simp only [h1, Bool.false_eq_true, if_false, hn, ht, hrh, hrp, hlp, hap,
    Option.getD_some]

theorem mkJump_error_of_invalid (r : Record)
    (h : hasUnknownKey r = true ∨ missingRequiredKey r = true) :
    ∃ e, mkJump r = .error e := by
  unfold mkJump
  by_cases hu : hasUnknownKey r = true
  · rw [hasUnknownKey] at hu
    rw [if_pos hu]
    exact ⟨_, rfl⟩
  · have hm : missingRequiredKey r = true := h.resolve_left hu
    rw [hasUnknownKey, Bool.not_eq_true] at hu
    simp only [hu, Bool.false_eq_true, if_false]
    rw [missingRequiredKey, List.any_eq_true] at hm
    obtain ⟨k, hk, hnone⟩ := hm
    rw [Option.isNone_iff_eq_none] at hnone
    simp only [requiredFields, List.mem_cons, List.not_mem_nil, or_false] at hk
    rcases hk with rfl | rfl | rfl | rfl | rfl | rfl
    · simp [hnone]
    · cases h1 : r.lookup "name" <;> simp [h1, hnone]
    · cases h1 : r.lookup "name" <;> cases h2 : r.lookup "target_instance_name" <;>
        simp [h1, h2, hnone]
    · cases h1 : r.lookup "name" <;> cases h2 : r.lookup "target_instance_name" <;>
        cases h3 : r.lookup "remote_host" <;> simp [h1, h2, h3, hnone]
    · cases h1 : r.lookup "name" <;> cases h2 : r.lookup "target_instance_name" <;>
        cases h3 : r.lookup "remote_host" <;> cases h4 : r.lookup "remote_port" <;>
        simp [h1, h2, h3, h4, hnone]
    · cases h1 : r.lookup "name" <;> cases h2 : r.lookup "target_instance_name" <;>
        cases h3 : r.lookup "remote_host" <;> cases h4 : r.lookup "remote_port" <;>
        cases h5 : r.lookup "local_port" <;> simp [h1, h2, h3, h4, h5, hnone]

theorem mapJumps_ok_of_valid (recs : List Record)
    (h : ∀ r ∈ recs, validRecord r = true) :
    mapJumps recs = .ok (recs.map mkJumpD) := by
  induction recs with
  | nil => rfl
  | cons r rs ih =>
    have hr := mkJump_ok_of_valid r (h r (by simp))
    have hrs := ih (fun x hx => h x (by simp [hx]))
    simp [mapJumps, hr, hrs]

theorem mapJumps_error_of_bad (recs : List Record)
    (h : ∃ r ∈ recs, hasUnknownKey r = true ∨ missingRequiredKey r = true) :
    ∃ e, mapJumps recs = .error e := by
  induction recs with
  | nil => simp at h
  | cons r rs ih =>
    rcases h with ⟨x, hx, hbad⟩
    rcases List.mem_cons.mp hx with rfl | hmem
    · obtain ⟨e, he⟩ := mkJump_error_of_invalid x hbad
      exact ⟨e, by simp [mapJumps, he]⟩
    · cases hj : mkJump r with
      | error e2 => exact ⟨e2, by simp [mapJumps, hj]⟩
      | ok j =>
        obtain ⟨e, he⟩ := ih ⟨x, hmem, hbad⟩
        exact ⟨e, by simp [mapJumps, hj, he]⟩

theorem mapJumps_length (recs : List Record) (js : List RawJump)
    (h : mapJumps recs = .ok js) : js.length = recs.length := by
  induction recs generalizing js with
  | nil =>
    unfold mapJumps at h
    cases h
    rfl
  | cons r rs ih =>
    unfold mapJumps at h
    cases h1 : mkJump r <;> rw [h1] at h
    · cases h
    · cases h2 : mapJumps rs <;> rw [h2] at h
      · cases h
      · cases h
        simp [ih _ h2]

/-- Claim C7 counterexample: a config record whose `remote_port` value is
the string `"not-an-int"` — a field of the wrong type under the dataclass's
`remote_port: int` annotation — parses successfully with no `ConfigError`:
the wrong-typed value is stored verbatim in the resulting jump. -/
theorem C7_counterexample_wrong_type_accepted :
    badTypedRecord.lookup "remote_port" = some (.vStr "not-an-int") ∧
    parse_jumps_from_config (.parsed [badTypedRecord]) =
      .ok [⟨.vStr "a", .vStr "t", .vStr "h", .vStr "not-an-int", .vInt 1,
            .vStr "p", .vBool false⟩] := by decide

/-- Claim C7 as amended: an absent or malformed config document, and any
record with an unknown key or a missing required key, make the load fail
with a `ConfigError` carrying the underlying error message before exit; a
successful load parses every record (no partial mapping).  Wrong-typed
field values, however, are accepted without validation (see the
counterexample). -/
theorem C7_config_error_cases (cfg : RawConfig) :
    (∀ msg, cfg = .readError msg →
      parse_jumps_from_config cfg = .configError (configErrorMsg msg)) ∧
    (∀ recs, cfg = .parsed recs →
      (∃ r ∈ recs, hasUnknownKey r = true ∨ missingRequiredKey r = true) →
      ∃ e, parse_jumps_from_config cfg = .configError (configErrorMsg e)) ∧
    (∀ recs js, cfg = .parsed recs → parse_jumps_from_config cfg = .ok js →
      js.length = recs.length) := by
  refine ⟨fun msg hm => ?_, fun recs hp hbad => ?_, fun recs js hp hok => ?_⟩
  · subst hm
    rfl
  · subst hp
    obtain ⟨e, he⟩ := mapJumps_error_of_bad recs hbad
    exact ⟨e, by simp [parse_jumps_from_config, he]⟩
  · subst hp
    simp only [parse_jumps_from_config] at hok
    cases h2 : mapJumps recs <;> rw [h2] at hok <;> dsimp only at hok
    · cases hok
    · cases hok
      exact mapJumps_length recs _ h2

/-- Claim C7 witness: a record holding only `name` misses required keys,
and the load fails with a wrapped `ConfigError`. -/
theorem C7_config_error_cases_witness :
    (∃ r ∈ [missingFieldRecord], hasUnknownKey r = true ∨ missingRequiredKey r = true) ∧
    (∃ e, parse_jumps_from_config (.parsed [missingFieldRecord]) =
      .configError (configErrorMsg e)) :=
  ⟨⟨missingFieldRecord, by decide, by decide⟩,
   (C7_config_error_cases (.parsed [missingFieldRecord])).2.1 [missingFieldRecord] rfl
     ⟨missingFieldRecord, by decide, by decide⟩⟩

theorem lastWithName_spec (nv : Value) (recs : List Record) (x : Record)
    (h : lastWithName nv recs = some x) :
    x ∈ recs ∧ x.lookup "name" = some nv := by
  induction recs with
  | nil => cases h
  | cons r rs ih =>
    unfold lastWithName at h
    cases hl : lastWithName nv rs <;> rw [hl] at h
    · split_ifs at h with hc
      cases h
      exact ⟨by simp, hc⟩
    · cases h
      obtain ⟨hmem, hname⟩ := ih hl
      exact ⟨by simp [hmem], hname⟩

theorem lastWithName_isSome (recs : List Record) (nv : Value)
    (h : ∃ r ∈ recs, r.lookup "name" = some nv) :
    ∃ r, lastWithName nv recs = some r ∧ r.lookup "name" = some nv := by
  induction recs with
  | nil => simp at h
  | cons r rs ih =>
    unfold lastWithName
    cases hl : lastWithName nv rs with
    | some x =>
      obtain ⟨hmem, hname⟩ := lastWithName_spec nv rs x hl
      exact ⟨x, rfl, hname⟩
    | none =>
      rcases h with ⟨y, hy, hyname⟩
      rcases List.mem_cons.mp hy with rfl | hmem
      · exact ⟨y, by simp [hyname], hyname⟩
      · exfalso
        obtain ⟨z, hz, _⟩ := ih ⟨y, hmem, hyname⟩
        rw [hl] at hz
        cases hz

theorem dictGet_map_mkJumpD (recs : List Record) (nv : Value)
    (h : ∀ r ∈ recs, validRecord r = true) :
    dictGet (recs.map mkJumpD) nv = (lastWithName nv recs).map mkJumpD := by
  induction recs with
  | nil => rfl
  | cons r rs ih =>
    simp only [List.map_cons]
    unfold dictGet lastWithName
    rw [ih (fun x hx => h x (by simp [hx]))]
    cases hl : lastWithName nv rs with
    | some x => simp
    | none =>
      simp only [Option.map_none]
      have hv := h r (by simp)
      unfold validRecord at hv
      rw [Bool.and_eq_true] at hv
      obtain ⟨n, hn⟩ := Option.isSome_iff_exists.mp
        ((List.all_eq_true.mp hv.2) "name" (by simp [requiredFields]))
      have hveq : ((mkJumpD r).name = nv) ↔ (r.lookup "name" = some nv) := by
        simp [mkJumpD, hn]
      by_cases hc : r.lookup "name" = some nv
      · rw [if_pos (hveq.mpr hc), if_pos hc]
        rfl
      · rw [if_neg (fun hx => hc (hveq.mp hx)), if_neg hc]
        rfl

/-- Claim C10: a config document of structurally valid records in which two
or more records share a name loads without any error, and the produced dict
binds that name to the record occurring last in document order — the dict
comprehension lets later entries overwrite earlier ones. -/
theorem C10_duplicate_names_last_wins (recs : List Record) (nv : Value)
    (hval : ∀ r ∈ recs, validRecord r = true)
    (hdup : 2 ≤ recs.countP (fun r => decide (r.lookup "name" = some nv))) :
    parse_jumps_from_config (.parsed recs) = .ok (recs.map mkJumpD) ∧
    ∃ r, lastWithName nv recs = some r ∧ r.lookup "name" = some nv ∧
      dictGet (recs.map mkJumpD) nv = some (mkJumpD r) := by
  have hok := mapJumps_ok_of_valid recs hval
  refine ⟨by simp [parse_jumps_from_config, hok], ?_⟩
  have hex : ∃ r ∈ recs, r.lookup "name" = some nv := by
    have hpos : 0 < recs.countP (fun r => decide (r.lookup "name" = some nv)) := by omega
    obtain ⟨a, ha, hp⟩ := List.countP_pos_iff.mp hpos
    exact ⟨a, ha, of_decide_eq_true hp⟩
  obtain ⟨r, hr, hname⟩ := lastWithName_isSome recs nv hex
  refine ⟨r, hr, hname, ?_⟩
  rw [dictGet_map_mkJumpD recs nv hval, hr]
  rfl

/-- Claim C10 witness: the two valid records both named `dup` load without
error and the dict binds `dup` to the later record `dupRecord2`. -/
theorem C10_duplicate_names_last_wins_witness :
    (∀ r ∈ [dupRecord1, dupRecord2], validRecord r = true) ∧
    2 ≤ [dupRecord1, dupRecord2].countP
        (fun r => decide (r.lookup "name" = some (.vStr "dup"))) ∧
    dictGet ([dupRecord1, dupRecord2].map mkJumpD) (.vStr "dup") =
      some (mkJumpD dupRecord2) ∧
    (parse_jumps_from_config (.parsed [dupRecord1, dupRecord2]) =
      .ok ([dupRecord1, dupRecord2].map mkJumpD) ∧
     ∃ r, lastWithName (.vStr "dup") [dupRecord1, dupRecord2] = some r ∧
       r.lookup "name" = some (.vStr "dup") ∧
       dictGet ([dupRecord1, dupRecord2].map mkJumpD) (.vStr "dup") =
         some (mkJumpD r)) :=
  ⟨by decide, by decide, by decide,
   C10_duplicate_names_last_wins [dupRecord1, dupRecord2] (.vStr "dup")
     (by decide) (by decide)⟩

end JumpPy
